import Mathlib

/-!
Shallow embedding of the bias-aggregation and coverage-comparison logic of
the TheNarrative front-end (files `src/components/newsfeed.js`,
`src/components/NewsFeed.js`, `src/components/CompareCoverage.js`).

JavaScript values that may be `undefined` are modelled as `Option`;
JavaScript string falsiness (`undefined`, `null`, `""`) is modelled by
`strFalsy`; numeric confidence values are modelled as rationals.
-/

namespace TheNarrative

/-- JS truthiness test for an optional string: `undefined` and `""` are falsy. -/
def strFalsy : Option String → Bool
  | none => true
  | some s => s == ""

/-- The JS expression `a || b` on optional strings (used as
`article.summary || article.description`, `error || defaultMessage`, ...). -/
def jsOrStr (a b : Option String) : Option String :=
  if strFalsy a then b else a

/-- The JS expression `a || b` where `a` is an optional number and `0` is falsy
(used as `response.data.confidence || 0.85`). -/
def jsOrNum (a : Option ℚ) (b : ℚ) : ℚ :=
  match a with
  | none => b
  | some x => if x = 0 then b else x

/-- Publisher record: `source.name` may be absent. -/
structure SourceInfo where
  name : Option String := none
deriving DecidableEq

/-- An article as the components consume it.  Fields that a JS payload may
omit are `Option`; `_id` is the Mongo-style identifier carried by feed
articles. -/
structure Article where
  _id : String := ""
  id : Option String := none
  title : String := ""
  aiHeading : Option String := none
  summary : Option String := none
  description : Option String := none
  source : Option SourceInfo := none
  publishedAt : String := ""
  url : String := ""
  articleBias : Option String := none
  biasConfidence : Option ℚ := none
  biasReasoning : Option String := none
  keywords : List String := []
deriving DecidableEq

/-- The JS expression `article.articleBias || "unknown"`
(newsfeed.js line 323 and 327). -/
def effBias (a : Article) : String :=
  match a.articleBias with
  | none => "unknown"
  | some s => if s = "" then "unknown" else s

/-- `getBiasColor` of the NewsFeed component in newsfeed.js (lines 370-378):
`colors[bias] || colors.unknown` — an exact-key object lookup, with NO
lower-casing of the incoming label. -/
def getBiasColorNF (bias : Option String) : String :=
  if bias = some "left" then "#2563eb"
  else if bias = some "center" then "#7c3aed"
  else if bias = some "right" then "#dc2626"
  else if bias = some "unknown" then "#6b7280"
  else "#6b7280"

/-- `getBiasLabel` of the NewsFeed component in newsfeed.js (lines 380-388):
`labels[bias] || labels.unknown`, again an exact-key lookup. -/
def getBiasLabelNF (bias : Option String) : String :=
  if bias = some "left" then "Left-Leaning"
  else if bias = some "center" then "Center"
  else if bias = some "right" then "Right-Leaning"
  else if bias = some "unknown" then "Unknown"
  else "Unknown"

/-- `getBiasColor` of `EnhancedBiasIndicator` in NewsFeed.js (lines 252-259):
`switch (bias?.toLowerCase())` — the label IS lower-cased before matching. -/
def getBiasColorEnhanced (bias : Option String) : String :=
  if bias.map String.toLower = some "left" then "#2563eb"
  else if bias.map String.toLower = some "right" then "#dc2626"
  else if bias.map String.toLower = some "center" then "#059669"
  else "#6b7280"

/-- The JS comparison `conf > t` where `conf` may be `undefined`
(`undefined > t` is false in JS). -/
def jsGtConf (conf : Option ℚ) (t : ℚ) : Bool :=
  match conf with
  | none => false
  | some c => decide (t < c)

/-- newsfeed.js line 402:
`article.biasConfidence > 0.6 && article.articleBias !== "unknown"`. -/
def hasReliableBiasData (a : Article) : Bool :=
  jsGtConf a.biasConfidence (6/10) && decide (a.articleBias ≠ some "unknown")

/-- newsfeed.js line 439: the `BiasIndicator` badge is rendered exactly when
`hasReliableBiasData` is true. -/
def biasIndicatorRendered (a : Article) : Bool :=
  hasReliableBiasData a

/-- The `missingBiases` object that CompareCoverage receives from upstream:
three boolean flags, an absent property reading as `false`. -/
structure MissingBiases where
  left : Bool := false
  center : Bool := false
  right : Bool := false
deriving DecidableEq

/-- The `articlesByBias` object: each bucket may be absent
(`articlesByBias.left?` / `articlesByBias.left || []` in the code). The
`unknown` key may be present in the payload but is never read by the view. -/
structure ArticlesByBias where
  left : Option (List Article) := none
  center : Option (List Article) := none
  right : Option (List Article) := none
  unknown : Option (List Article) := none
deriving DecidableEq

/-- The `storyGroup` header object destructured from the story data. -/
structure StoryGroupInfo where
  mainHeadline : Option String := none
  category : Option String := none
  summary : Option String := none
deriving DecidableEq

/-- The story payload CompareCoverage destructures:
`const { storyGroup, articlesByBias, missingBiases } = storyData`. -/
structure StoryData where
  storyGroup : Option StoryGroupInfo := none
  articlesByBias : Option ArticlesByBias := none
  missingBiases : Option MissingBiases := none
deriving DecidableEq

/-- CompareCoverage lines 239-241 (and newsfeed.js lines 1184-1186):
`(articlesByBias.left?.length || 0) + (articlesByBias.center?.length || 0)
+ (articlesByBias.right?.length || 0)`. -/
def totalArticles (ab : ArticlesByBias) : Nat :=
  (ab.left.getD []).length + (ab.center.getD []).length + (ab.right.getD []).length

/-- The `missing` list built by `getMissingBiasMessage` (CompareCoverage
lines 215-219): each entry is pushed when the corresponding upstream flag
`missingBiases && missingBiases.<label>` is truthy. -/
def missingLabels (mb : Option MissingBiases) : List String :=
  (if (mb.map MissingBiases.left).getD false then ["Left-leaning"] else []) ++
  (if (mb.map MissingBiases.center).getD false then ["Centrist"] else []) ++
  (if (mb.map MissingBiases.right).getD false then ["Right-leaning"] else [])

/-- `getMissingBiasMessage` returns the alert node unless
`missing.length === 0`; so the Incomplete Coverage alert is rendered exactly
when `missingLabels` is nonempty. -/
def alertRendered (mb : Option MissingBiases) : Bool :=
  decide (missingLabels mb ≠ [])

/-- The render outcome of the CompareCoverage component. -/
inductive CompareView where
  | loadingView : CompareView
  | errorView (message : String) : CompareView
  | gridView (headline : Option String) (total : Nat) (alert : Bool)
      (left center right : List Article) : CompareView
deriving DecidableEq

/-- Top-level render decision of CompareCoverage (lines 41-73 and 243-268;
identically in the CompareCoverage half of newsfeed.js): loading spinner
first; then the error view on `error || !storyData || !storyData.articlesByBias`
with message `error || "No comparison data available for this article"`;
otherwise the three-column grid, each column `articlesByBias.<label> || []`.
`Except.error` models a thrown TypeError: the grid branch dereferences
`storyGroup.mainHeadline` without a guard. -/
def compareCoverageView (loading : Bool) (error : Option String)
    (storyData : Option StoryData) : Except String CompareView :=
  if loading then Except.ok CompareView.loadingView
  else if strFalsy error = false then
    Except.ok (CompareView.errorView (error.getD ""))
  else
    match storyData with
    | none => Except.ok (CompareView.errorView "No comparison data available for this article")
    | some sd =>
      match sd.articlesByBias with
      | none => Except.ok (CompareView.errorView "No comparison data available for this article")
      | some ab =>
        match sd.storyGroup with
        | none => Except.error "TypeError: Cannot read properties of undefined"
        | some g =>
          Except.ok (CompareView.gridView g.mainHeadline (totalArticles ab)
            (alertRendered sd.missingBiases)
            (ab.left.getD []) (ab.center.getD []) (ab.right.getD []))

/-- Whether a render outcome is the three-column comparison grid. -/
def isGridView : CompareView → Bool
  | CompareView.gridView _ _ _ _ _ _ => true
  | _ => false

/-- State left by `loadStoryData` of CompareCoverage.js (lines 28-39): on a
successful fetch, `storyData := response.data` and `error` stays unset; on a
failed fetch, `error := "Failed to load coverage comparison"` and `storyData`
keeps its initial value, which is absent on the fetch path (the fetch only
runs when no `story` prop was supplied). -/
def loadStoryDataResult (fetch : Except String StoryData) :
    Option String × Option StoryData :=
  match fetch with
  | Except.ok d => (none, some d)
  | Except.error _ => (some "Failed to load coverage comparison", none)

/-- A JS object with numeric values, modelled as a total function from key
strings; the code only ever reads keys it has written, so absent keys are
modelled as 0. -/
def objSet (o : String → Nat) (k : String) (v : Nat) : String → Nat :=
  fun k2 => if k2 = k then v else o k2

/-- The empty numeric object. -/
def emptyNumObj : String → Nat := fun _ => 0

/-- The `biasDistribution` of the temporary story (newsfeed.js lines 322-327):
the object literal `{ [article.articleBias || "unknown"]: 1, left: 0,
center: 0, right: 0, unknown: 0 }` evaluated left to right (later duplicate
keys overwrite earlier ones), followed by the assignment
`tempStory.biasDistribution[article.articleBias || "unknown"] = 1`. -/
def tempStoryBiasDist (a : Article) : String → Nat :=
  let lit :=
    objSet (objSet (objSet (objSet (objSet emptyNumObj (effBias a) 1)
      "left" 0) "center" 0) "right" 0) "unknown" 0
  objSet lit (effBias a) 1

/-- The temporary single-article story synthesized by `handleCompareClick`
(newsfeed.js lines 317-327) when the compare endpoint returns no `storyId`. -/
structure TempStory where
  _id : String
  mainHeadline : String
  summary : Option String
  articles : List Article
  biasDistribution : String → Nat

/-- newsfeed.js lines 317-327. -/
def tempStory (article : Article) : TempStory :=
  { _id := "temp_" ++ article._id
    mainHeadline := article.title
    summary := jsOrStr article.summary article.description
    articles := [article]
    biasDistribution := tempStoryBiasDist article }

/-- The temporary story as CompareCoverage sees it after destructuring: the
object has no `storyGroup`, no `articlesByBias` and no `missingBiases`
property, so all three read as absent. -/
def TempStory.asStoryData (_t : TempStory) : StoryData :=
  { storyGroup := none, articlesByBias := none, missingBiases := none }

/-- The payload of the `/analyze` endpoint used by `loadStoryData` in the
CompareCoverage half of newsfeed.js. -/
structure AnalyzeResponse where
  explanation : Option String := none
  confidence : Option ℚ := none
deriving DecidableEq

/-- The synthetic analysis article built inside `transformedData`
(newsfeed.js lines 951-960). The JS literal defines `id` (not `_id`); `now`
stands for the impure `Date.now()` / `new Date().toISOString()` reads and
`href` for `window.location.href`. -/
def analysisArticle (resp : AnalyzeResponse) (now href : String) : Article :=
  { id := some ("analysis-" ++ now)
    title := "AI Analysis Result"
    summary := jsOrStr resp.explanation (some "Bias analysis completed")
    source := some { name := some "AI Analysis" }
    publishedAt := now
    url := href
    biasConfidence := some (jsOrNum resp.confidence (85/100))
    biasReasoning := jsOrStr resp.explanation (some "Automated analysis") }

/-- The story data constructed by `loadStoryData` in the CompareCoverage half
of newsfeed.js (lines 943-964): an empty `left` and `right` bucket, a single
synthetic `center` article, and `missingBiases: {}` — an object with no keys,
whose three flags therefore all read as falsy. -/
def transformedData (resp : AnalyzeResponse) (now href : String) : StoryData :=
  { storyGroup := some
      { mainHeadline := some "Story Analysis"
        category := some "Analysis"
        summary := jsOrStr resp.explanation (some "AI-powered story analysis") }
    articlesByBias := some
      { left := some []
        center := some [analysisArticle resp now href]
        right := some []
        unknown := none }
    missingBiases := some {} }

/-- One displayed bias bar of `renderStoryGroup` (newsfeed.js lines 633-654):
label, count and the computed width `(count / storyGroup.totalArticles) * 100`.
The JS division carries no zero-guard; `none` models the non-finite number
(Infinity) JavaScript produces when `totalArticles` is 0. -/
def jsPercentOfTotal (count total : Nat) : Option ℚ :=
  if total = 0 then none
  else some (((count : ℚ) / (total : ℚ)) * 100)

/-- The list of bias bars `renderStoryGroup` renders: entries of
`storyGroup.biasDistribution` in order, skipping those with
`count === 0` (line 634), each with its computed percentage. -/
def renderedBars (dist : List (String × Nat)) (total : Nat) :
    List (String × Nat × Option ℚ) :=
  (dist.filter (fun p => p.2 != 0)).map
    (fun p => (p.1, p.2, jsPercentOfTotal p.2 total))

/-- newsfeed.js line 459 (feed article card):
`article.source?.name || "Unknown Source"`. -/
def feedSourceName (a : Article) : String :=
  (jsOrStr (a.source.bind SourceInfo.name) (some "Unknown Source")).getD ""

/-- The parts of a rendered comparison article card the claims speak about. -/
structure CardView where
  sourceName : String
  heading : String
  confidenceShown : Bool
deriving DecidableEq

/-- `renderArticleCard` of CompareCoverage (lines 114-187, likewise in the
CompareCoverage half of newsfeed.js): `article.source.name` is dereferenced
with no optional chaining and no fallback, so an absent `source` object makes
rendering throw; an absent `name` renders as blank, not as "Unknown Source".
The heading is `article.aiHeading || article.title` and the confidence badge
shows when `article.biasConfidence > 0`. -/
def compareRenderCard (a : Article) : Except String CardView :=
  match a.source with
  | none => Except.error "TypeError: Cannot read properties of undefined"
  | some s =>
      Except.ok
        { sourceName := s.name.getD ""
          heading := (jsOrStr a.aiHeading (some a.title)).getD ""
          confidenceShown := jsGtConf a.biasConfidence 0 }

/-- A well-formed centre-leaning article. -/
def centerArticle : Article :=
  { _id := "a42"
    title := "Budget vote passes"
    summary := some "The budget passed."
    source := some { name := some "Wire Service" }
    publishedAt := "2026-01-01T00:00:00Z"
    url := "https://example.com/a42"
    articleBias := some "center"
    biasConfidence := some (9/10) }

/-- A malformed article record whose `source` object is absent. -/
def noSourceArticle : Article :=
  { _id := "n1"
    title := "Untitled wire story"
    publishedAt := "2026-01-02T00:00:00Z"
    url := "https://example.com/n1"
    articleBias := some "left"
    biasConfidence := some (7/10) }

/-- A sample story payload with one article in each bucket. -/
def sampleStoryData : StoryData :=
  { storyGroup := some
      { mainHeadline := some "Budget vote"
        category := some "politics"
        summary := some "A neutral synthesis." }
    articlesByBias := some
      { left := some [noSourceArticle]
        center := some [centerArticle]
        right := some []
        unknown := none }
    missingBiases := some { right := true } }

/-- Every member of a list of naturals is at most the sum of the list. -/
theorem mem_le_sum_nat {x : Nat} : ∀ {l : List Nat}, x ∈ l → x ≤ l.sum := by
  intro l hx
  induction l with
  | nil => cases hx
  | cons a t ih =>
    rcases List.mem_cons.mp hx with h | h
    · subst h; simp
    · calc x ≤ t.sum := ih h
        _ ≤ a + t.sum := Nat.le_add_left _ _

/-- C9: for every article in the feed, the bias indicator badge is displayed
if and only if `biasConfidence` is present and strictly exceeds 0.6 and the
raw `articleBias` value is not the string "unknown" (an absent raw label
counts as not-"unknown", exactly as `!==` does in JS). -/
theorem biasIndicator_iff (a : Article) :
    biasIndicatorRendered a = true ↔
      ((∃ c, a.biasConfidence = some c ∧ (6 : ℚ)/10 < c) ∧
        a.articleBias ≠ some "unknown") := by
  unfold biasIndicatorRendered hasReliableBiasData jsGtConf
  cases hc : a.biasConfidence with
  | none => simp [hc]
  | some c =>
      simp only [Bool.and_eq_true, decide_eq_true_eq]
      constructor
      · rintro ⟨h1, h2⟩; exact ⟨⟨c, rfl, h1⟩, h2⟩
      · rintro ⟨⟨c2, hc2, h1⟩, h2⟩
        refine ⟨?_, h2⟩
        cases hc2; exact h1

/-- C4: `totalArticles` is exactly the sum of the three displayed bucket
lengths, articles under the `unknown` key contribute nothing to it, and the
rendered grid displays exactly those three buckets as its columns with
`totalArticles` as its total. -/
theorem totalArticles_partition (ab : ArticlesByBias) (u : Option (List Article))
    (sd : StoryData) (g : StoryGroupInfo)
    (h1 : sd.articlesByBias = some ab) (h2 : sd.storyGroup = some g) :
    totalArticles ab =
      (ab.left.getD []).length + (ab.center.getD []).length + (ab.right.getD []).length ∧
    totalArticles { ab with unknown := u } = totalArticles ab ∧
    compareCoverageView false none (some sd) =
      Except.ok (CompareView.gridView g.mainHeadline (totalArticles ab)
        (alertRendered sd.missingBiases)
        (ab.left.getD []) (ab.center.getD []) (ab.right.getD [])) := by
  refine ⟨rfl, rfl, ?_⟩
  obtain ⟨sg, abb, mb⟩ := sd
  simp only at h1 h2
  subst h1; subst h2
  rfl

/-- Closed witness for `totalArticles_partition`. -/
theorem totalArticles_partition_witness :
    sampleStoryData.articlesByBias = some
      { left := some [noSourceArticle], center := some [centerArticle],
        right := some [], unknown := none } ∧
    sampleStoryData.storyGroup = some
      { mainHeadline := some "Budget vote", category := some "politics",
        summary := some "A neutral synthesis." } ∧
    (totalArticles
        { left := some [noSourceArticle], center := some [centerArticle],
          right := some [], unknown := none } =
      ((some [noSourceArticle] : Option (List Article)).getD []).length +
        ((some [centerArticle] : Option (List Article)).getD []).length +
        ((some [] : Option (List Article)).getD []).length ∧
      totalArticles
        { left := some [noSourceArticle], center := some [centerArticle],
          right := some [], unknown := some [centerArticle] } =
        totalArticles
          { left := some [noSourceArticle], center := some [centerArticle],
            right := some [], unknown := none } ∧
      compareCoverageView false none (some sampleStoryData) =
        Except.ok (CompareView.gridView (some "Budget vote")
          (totalArticles
            { left := some [noSourceArticle], center := some [centerArticle],
              right := some [], unknown := none })
          (alertRendered sampleStoryData.missingBiases)
          ((some [noSourceArticle] : Option (List Article)).getD [])
          ((some [centerArticle] : Option (List Article)).getD [])
          ((some [] : Option (List Article)).getD []))) :=
  ⟨rfl, rfl,
    totalArticles_partition
      { left := some [noSourceArticle], center := some [centerArticle],
        right := some [], unknown := none }
      (some [centerArticle]) sampleStoryData
      { mainHeadline := some "Budget vote", category := some "politics",
        summary := some "A neutral synthesis." }
      rfl rfl⟩

/-- C8: the aggregation and display computation is a pure total function of
its input — evaluating it on the same unmutated story data (and the same
bias-distribution entries) twice yields structurally equal output. The
embedding performs no effects; determinism is congruence. -/
theorem aggregation_pure (l : Bool) (e : Option String)
    (s1 s2 : Option StoryData) (d1 d2 : List (String × Nat)) (t : Nat)
    (hs : s1 = s2) (hd : d1 = d2) :
    compareCoverageView l e s1 = compareCoverageView l e s2 ∧
    renderedBars d1 t = renderedBars d2 t ∧
    (∀ ab, s1 = s2 →
      totalArticles ab = totalArticles ab ∧ missingLabels none = missingLabels none) := by
  subst hs; subst hd
  exact ⟨rfl, rfl, fun ab _ => ⟨rfl, rfl⟩⟩

/-- Closed witness for `aggregation_pure`. -/
theorem aggregation_pure_witness :
    (some sampleStoryData : Option StoryData) = some sampleStoryData ∧
    ([("left", 2)] : List (String × Nat)) = [("left", 2)] ∧
    (compareCoverageView false none (some sampleStoryData) =
        compareCoverageView false none (some sampleStoryData) ∧
      renderedBars [("left", 2)] 2 = renderedBars [("left", 2)] 2 ∧
      (∀ ab, (some sampleStoryData : Option StoryData) = some sampleStoryData →
        totalArticles ab = totalArticles ab ∧
        missingLabels none = missingLabels none)) :=
  ⟨rfl, rfl,
    aggregation_pure false none (some sampleStoryData) (some sampleStoryData)
      [("left", 2)] [("left", 2)] 2 rfl rfl⟩

/-- C2 counterexample: the breakdown the comparison view itself constructs in
the CompareCoverage half of newsfeed.js has an empty `left` bucket (count 0)
while its `missingBiases` object carries no truthy flag, so "left" is not
reported missing and the Incomplete Coverage alert is not rendered — refuting
the claimed iff between `missingBiases` membership and bucket emptiness. -/
theorem missingBiases_not_from_counts :
    ((transformedData {} "2026-01-01" "https://example.com").articlesByBias.bind
        ArticlesByBias.left) = some [] ∧
    (transformedData {} "2026-01-01" "https://example.com").missingBiases =
      some { left := false, center := false, right := false } ∧
    missingLabels (transformedData {} "2026-01-01" "https://example.com").missingBiases = [] ∧
    alertRendered (transformedData {} "2026-01-01" "https://example.com").missingBiases
      = false := by
  refine ⟨rfl, rfl, rfl, rfl⟩

/-- C2 amended: the Incomplete Coverage alert is rendered exactly when the
upstream `missingBiases` object has at least one truthy flag among left,
center, right; the flags are taken from the payload as-is and are not
recomputed from the bucket counts. -/
theorem alertRendered_iff_flags (mb : Option MissingBiases) :
    alertRendered mb = true ↔
      ((mb.map MissingBiases.left).getD false = true ∨
       (mb.map MissingBiases.center).getD false = true ∨
       (mb.map MissingBiases.right).getD false = true) := by
  cases mb with
  | none => simp [alertRendered, missingLabels]
  | some m =>
      obtain ⟨l, c, r⟩ := m
      cases l <;> cases c <;> cases r <;>
        simp [alertRendered, missingLabels]

/-- C7: whenever the upstream fetch fails (which sets a truthy error message)
or the story data is absent or lacks an `articlesByBias` breakdown, the
component renders the error view and not the comparison grid. -/
theorem compareCoverage_error_state (err : Option String) (sd : Option StoryData)
    (e : String)
    (h : strFalsy err = false ∨ (∀ d, sd = some d → d.articlesByBias = none)) :
    (loadStoryDataResult (Except.error e)).1 = some "Failed to load coverage comparison" ∧
    (∃ msg, compareCoverageView false err sd = Except.ok (CompareView.errorView msg)) ∧
    (∀ v, compareCoverageView false err sd = Except.ok v → isGridView v = false) := by
  refine ⟨rfl, ?_⟩
  have key : ∃ msg, compareCoverageView false err sd =
      Except.ok (CompareView.errorView msg) := by
    by_cases htr : strFalsy err = false
    · refine ⟨err.getD "", ?_⟩
      unfold compareCoverageView
      rw [if_neg (by simp), if_pos htr]
    · rcases h with h | h
      · exact absurd h htr
      · unfold compareCoverageView
        rw [if_neg (by simp), if_neg htr]
        cases sd with
        | none => exact ⟨_, rfl⟩
        | some d =>
            obtain ⟨sg, abb, mb⟩ := d
            have hd : abb = none := h ⟨sg, abb, mb⟩ rfl
            subst hd
            exact ⟨_, rfl⟩
  refine ⟨key, ?_⟩
  rcases key with ⟨msg, hmsg⟩
  intro v hv
  rw [hmsg] at hv
  cases hv
  rfl

/-- Closed witness for `compareCoverage_error_state`. -/
theorem compareCoverage_error_state_witness :
    (strFalsy (some "Failed to load coverage comparison") = false ∨
      (∀ d, (none : Option StoryData) = some d → d.articlesByBias = none)) ∧
    ((loadStoryDataResult (Except.error "network timeout")).1 =
        some "Failed to load coverage comparison" ∧
      (∃ msg, compareCoverageView false (some "Failed to load coverage comparison") none =
        Except.ok (CompareView.errorView msg)) ∧
      (∀ v, compareCoverageView false (some "Failed to load coverage comparison") none =
          Except.ok v → isGridView v = false)) :=
  ⟨Or.inl (by decide),
    compareCoverage_error_state (some "Failed to load coverage comparison") none
      "network timeout" (Or.inl (by decide))⟩

/-- C1 counterexample: the bias-bar width computation has no zero-guard.
With a distribution entry of count 1 and `totalArticles = 0` the displayed
bar carries a non-finite width (Infinity in JS, modelled `none`), not 0; and
with inconsistent data (count 2, `totalArticles` 1) the width is 200, outside
[0, 100]. -/
theorem percentage_unguarded_division :
    renderedBars [("left", 1)] 0 = [("left", 1, none)] ∧
    (none : Option ℚ) ≠ some 0 ∧
    renderedBars [("left", 2)] 1 = [("left", 2, some 200)] ∧
    ¬ ((200 : ℚ) ≤ 100) := by
  refine ⟨rfl, by decide, ?_, by norm_num⟩
  norm_num [renderedBars, jsPercentOfTotal]

/-- C1 amended: buckets with count 0 are skipped, so a percentage is only
displayed for non-empty buckets; whenever `totalArticles` equals the sum of
the distribution counts, every displayed percentage equals
`100 * count / totalArticles` and lies in (0, 100], and with
`totalArticles = 0` no bar is displayed at all. The code performs the
division with no zero-guard, so the value 0 is never substituted; the claim
holds only because the zero-total case displays nothing. -/
theorem renderedBars_spec (dist : List (String × Nat)) (total : Nat)
    (h : total = (dist.map Prod.snd).sum) :
    (∀ bar ∈ renderedBars dist total,
        bar.2.1 ≠ 0 ∧
        bar.2.2 = some (((bar.2.1 : ℚ) / (total : ℚ)) * 100) ∧
        ∀ q, bar.2.2 = some q → 0 < q ∧ q ≤ 100) ∧
    (total = 0 → renderedBars dist total = []) := by
  constructor
  · intro bar hbar
    unfold renderedBars at hbar
    rcases List.mem_map.mp hbar with ⟨p, hpf, rfl⟩
    have hpd : p ∈ dist := List.mem_of_mem_filter hpf
    have hne : p.2 ≠ 0 := by
      have hp := List.of_mem_filter hpf
      simpa using hp
    have hle : p.2 ≤ total := by
      rw [h]
      exact mem_le_sum_nat (List.mem_map_of_mem Prod.snd hpd)
    have htne : total ≠ 0 := by omega
    have htposQ : (0 : ℚ) < (total : ℚ) := by
      exact_mod_cast Nat.pos_of_ne_zero htne
    have hcposQ : (0 : ℚ) < (p.2 : ℚ) := by
      exact_mod_cast Nat.pos_of_ne_zero hne
    refine ⟨hne, by simp [jsPercentOfTotal, htne], ?_⟩
    intro q hq
    have hq2 : q = ((p.2 : ℚ) / (total : ℚ)) * 100 := by
      simp only [jsPercentOfTotal, if_neg htne] at hq
      exact (Option.some.injEq _ _ ▸ hq.symm)
    subst hq2
    constructor
    · exact mul_pos (div_pos hcposQ htposQ) (by norm_num)
    · have hdiv : (p.2 : ℚ) / (total : ℚ) ≤ 1 :=
        (div_le_one htposQ).mpr (by exact_mod_cast hle)
      calc ((p.2 : ℚ) / (total : ℚ)) * 100 ≤ 1 * 100 :=
            mul_le_mul_of_nonneg_right hdiv (by norm_num)
        _ = 100 := one_mul 100
  · intro h0
    unfold renderedBars
    have hf : dist.filter (fun p => p.2 != 0) = [] := by
      rw [List.filter_eq_nil_iff]
      intro p hp
      have hle : p.2 ≤ total := by
        rw [h]
        exact mem_le_sum_nat (List.mem_map_of_mem Prod.snd hp)
      have hz : p.2 = 0 := by omega
      simp [hz]
    rw [hf]
    rfl

/-- Closed witness for `renderedBars_spec`. -/
theorem renderedBars_spec_witness :
    (2 : Nat) = (([("left", 1), ("center", 1)] : List (String × Nat)).map Prod.snd).sum ∧
    ((∀ bar ∈ renderedBars [("left", 1), ("center", 1)] 2,
        bar.2.1 ≠ 0 ∧
        bar.2.2 = some (((bar.2.1 : ℚ) / ((2 : Nat) : ℚ)) * 100) ∧
        ∀ q, bar.2.2 = some q → 0 < q ∧ q ≤ 100) ∧
      ((2 : Nat) = 0 → renderedBars [("left", 1), ("center", 1)] 2 = [])) :=
  ⟨by decide, renderedBars_spec [("left", 1), ("center", 1)] 2 (by decide)⟩

/-- C3 counterexample: for a concrete article with bias "center", the
synthesized temporary story carries no `articlesByBias`, so the comparison
view renders the error state on it — the article does not appear in its own
bias column and the view does not behave as `aggregate([article])`. -/
theorem tempStory_renders_error_view :
    centerArticle.articleBias = some "center" ∧
    compareCoverageView false none
        (some (TempStory.asStoryData (tempStory centerArticle))) =
      Except.ok (CompareView.errorView "No comparison data available for this article") ∧
    isGridView (CompareView.errorView "No comparison data available for this article")
      = false :=
  ⟨rfl, rfl, rfl⟩

/-- C3 amended: the single-article fallback synthesizes a story whose
identifier carries the placeholder "temp_" before the article id, whose
articles list is exactly the one article, and whose `biasDistribution`
assigns 1 to the article bias label (or "unknown" when absent) and 0 to every
other label; but the synthesized story has no `articlesByBias`, so the
comparison view renders the "Unable to load coverage comparison" error state
on it rather than behaving as `aggregate([article])`. -/
theorem tempStory_spec (a : Article) (l : String) (hl : l ≠ effBias a) :
    (tempStory a)._id = "temp_" ++ a._id ∧
    (tempStory a).articles = [a] ∧
    (tempStory a).biasDistribution (effBias a) = 1 ∧
    (tempStory a).biasDistribution l = 0 ∧
    compareCoverageView false none (some (TempStory.asStoryData (tempStory a))) =
      Except.ok (CompareView.errorView "No comparison data available for this article") := by
  refine ⟨rfl, rfl, ?_, ?_, rfl⟩
  · show tempStoryBiasDist a (effBias a) = 1
    unfold tempStoryBiasDist objSet
    simp
  · show tempStoryBiasDist a l = 0
    unfold tempStoryBiasDist objSet emptyNumObj
    simp only [if_neg hl]
    split_ifs <;> simp_all

/-- Closed witness for `tempStory_spec`. -/
theorem tempStory_spec_witness :
    "left" ≠ effBias centerArticle ∧
    ((tempStory centerArticle)._id = "temp_" ++ centerArticle._id ∧
      (tempStory centerArticle).articles = [centerArticle] ∧
      (tempStory centerArticle).biasDistribution (effBias centerArticle) = 1 ∧
      (tempStory centerArticle).biasDistribution "left" = 0 ∧
      compareCoverageView false none
          (some (TempStory.asStoryData (tempStory centerArticle))) =
        Except.ok (CompareView.errorView "No comparison data available for this article")) :=
  ⟨by decide, tempStory_spec centerArticle "left" (by decide)⟩

/-- C5 counterexample: the bias-label lookup of the feed component in
newsfeed.js is case-sensitive — it does not lower-case before matching, so
the raw value "LEFT" (whose lower-casing, "left", is inside the enumeration)
is coerced straight to the unknown colour instead of receiving the left
colour as the claimed normalization would give it. -/
theorem getBiasColorNF_case_sensitive :
    getBiasColorNF (some "LEFT") = "#6b7280" ∧
    getBiasColorNF (some "left") = "#2563eb" ∧
    ("#6b7280" : String) ≠ "#2563eb" := by
  refine ⟨rfl, rfl, by decide⟩

/-- C5 amended: every off-enumeration raw value is coerced to the unknown
colour and label, and NewsFeed.js additionally lower-cases before matching
(its lookup depends only on the lower-cased label); but the newsfeed.js feed
component matches the raw string exactly, with no lower-casing, so values
outside the exact strings left/center/right/unknown — including mixed-case
ones — all fold to unknown. -/
theorem biasLabel_normalization_amended (b b2 : String)
    (hlow : b.toLower = b2.toLower)
    (hoff : b ∉ (["left", "center", "right", "unknown"] : List String)) :
    getBiasColorEnhanced (some b) = getBiasColorEnhanced (some b2) ∧
    getBiasColorNF (some b) = "#6b7280" ∧
    getBiasLabelNF (some b) = "Unknown" := by
  have h1 : b ≠ "left" := fun hb => hoff (by simp [hb])
  have h2 : b ≠ "center" := fun hb => hoff (by simp [hb])
  have h3 : b ≠ "right" := fun hb => hoff (by simp [hb])
  have h4 : b ≠ "unknown" := fun hb => hoff (by simp [hb])
  refine ⟨?_, ?_, ?_⟩
  · simp only [getBiasColorEnhanced, Option.map_some', hlow]
  · simp [getBiasColorNF, h1, h2, h3, h4]
  · simp [getBiasLabelNF, h1, h2, h3, h4]

/-- Closed witness for `biasLabel_normalization_amended`. -/
theorem biasLabel_normalization_amended_witness :
    ("LEFT" : String).toLower = ("LEFT" : String).toLower ∧
    ("LEFT" : String) ∉ (["left", "center", "right", "unknown"] : List String) ∧
    (getBiasColorEnhanced (some "LEFT") = getBiasColorEnhanced (some "LEFT") ∧
      getBiasColorNF (some "LEFT") = "#6b7280" ∧
      getBiasLabelNF (some "LEFT") = "Unknown") :=
  ⟨rfl, by decide, biasLabel_normalization_amended "LEFT" "LEFT" rfl (by decide)⟩

/-- C6 counterexample: rendering the comparison article card for an article
whose `source` object is absent throws (the code dereferences
`article.source.name` with no guard), while the feed card for the same
article falls back to "Unknown Source". -/
theorem compareCard_raises_on_missing_source :
    noSourceArticle.source = none ∧
    compareRenderCard noSourceArticle =
      Except.error "TypeError: Cannot read properties of undefined" ∧
    feedSourceName noSourceArticle = "Unknown Source" :=
  ⟨rfl, rfl, rfl⟩

/-- C6 amended: the feed article card never raises — a missing or invalid
bias label maps to the unknown colour and label and a missing source name is
displayed as "Unknown Source" — but the comparison-view article card
dereferences `article.source.name` without a guard, so rendering an article
whose `source` object is absent throws a TypeError. -/
theorem article_card_source_handling (a : Article) (h : a.source = none) :
    feedSourceName a = "Unknown Source" ∧
    compareRenderCard a = Except.error "TypeError: Cannot read properties of undefined" ∧
    getBiasColorNF none = "#6b7280" ∧
    getBiasLabelNF none = "Unknown" := by
  refine ⟨?_, ?_, rfl, rfl⟩
  · simp [feedSourceName, h, jsOrStr, strFalsy]
  · simp [compareRenderCard, h]

/-- Closed witness for `article_card_source_handling`. -/
theorem article_card_source_handling_witness :
    noSourceArticle.source = none ∧
    (feedSourceName noSourceArticle = "Unknown Source" ∧
      compareRenderCard noSourceArticle =
        Except.error "TypeError: Cannot read properties of undefined" ∧
      getBiasColorNF none = "#6b7280" ∧
      getBiasLabelNF none = "Unknown") :=
  ⟨rfl, article_card_source_handling noSourceArticle rfl⟩


end TheNarrative
